import Mathlib

set_option linter.unusedVariables false

/-!
Shallow embedding of the "Ai-counsellor" web application.

The application is a React front end over a hosted relational database.
This file embeds, directly from the TypeScript source and the SQL schema:

* the JS string primitives the pages use (`toLowerCase`, `includes`,
  `slice`, `join`);
* the data model (`Profile`, `University`, shortlist and lock rows,
  the `user_stage` and `university_category` enums);
* the data-access layer (`db/api.ts`), in two views:
  - an application-state view (`AppState` plus one function per
    user-visible operation), used for the state-machine claims, and
  - an oracle-monad view (`DbM` / namespace `DbApi`), which counts the
    remote round trips a call performs and propagates remote errors,
    used for the error-handling claims;
* the simulated counsellor `generateAIResponse` from
  `CounsellorPage.tsx`, template strings included;
* the in-memory filter `filteredUniversities` from
  `UniversitiesPage.tsx`.

Numbers that the pages render are formatted with Lean's `toString`;
only the rendering of numerals is abstracted, never a branch or a
comparison.  Timestamps (`created_at`, `locked_at`, `updated_at`) are
not modelled: no claim depends on them, and the embedded lists keep
insertion order exactly as the timestamp-ordered queries return it.
-/

namespace AiCounsellor

/-! ### JS string primitives -/

/-- Does the character list `pat` occur at the head of `s`?
(Helper for the JS `String.prototype.includes` semantics.) -/
def strStartsWith : List Char → List Char → Bool
  | [], _ => true
  | _ :: _, [] => false
  | p :: ps, c :: cs => p == c && strStartsWith ps cs

/-- Does the character list `pat` occur contiguously anywhere in `s`? -/
def hasSubstr (pat : List Char) : List Char → Bool
  | [] => strStartsWith pat []
  | c :: cs => strStartsWith pat (c :: cs) || hasSubstr pat cs

/-- JS `s.toLowerCase()` (per-character lowercasing). -/
def lowerStr (s : String) : String := ⟨s.data.map Char.toLower⟩

/-- JS `s.includes(pat)`: `pat` occurs as a contiguous substring of `s`.
Note `s.includes("")` is `true` for every `s`, as in JS. -/
def jsIncludes (s pat : String) : Bool := hasSubstr pat.data s.data

/-- JS `list.slice(a, b)` for `0 ≤ a ≤ b` (the only way the code calls it). -/
def jsSlice (l : List α) (a b : Nat) : List α := (l.drop a).take (b - a)

/-! ### Enums and rows (from `types/index.ts` and the SQL schema) -/

/-- The `user_stage` enum: a user's progress through the journey. -/
inductive UserStage where
  | not_started
  | onboarding
  | exploring
  | shortlisting
  | committed
  | applying
deriving DecidableEq, Repr

/-- Position of a stage in the declared order
`not_started → onboarding → exploring → shortlisting → committed → applying`. -/
def stageIdx : UserStage → Nat
  | .not_started => 0
  | .onboarding => 1
  | .exploring => 2
  | .shortlisting => 3
  | .committed => 4
  | .applying => 5

/-- The `university_category` enum for shortlist entries. -/
inductive UniversityCategory where
  | dream
  | target
  | safe
deriving DecidableEq, Repr

/-- A `profiles` row (the fields the embedded code reads or writes). -/
structure Profile where
  full_name : Option String
  current_stage : UserStage
  onboarding_completed : Bool
  current_education_level : Option String
  field_of_study : Option String
  gpa : Option ℚ
  target_degree : Option String
  preferred_countries : List String
  preferred_fields : List String
  budget_min : Option Nat
  budget_max : Option Nat
  exams_taken : List String
  exams_planned : List String
deriving DecidableEq, Repr

/-- A `universities` row (the fields the embedded code reads). -/
structure University where
  id : String
  name : String
  country : String
  city : Option String
  ranking : Option Nat
  acceptance_rate : Option ℚ
  tuition_fee_min : Option Nat
  tuition_fee_max : Option Nat
  currency : String
  programs : List String
  website : Option String
deriving DecidableEq, Repr

/-- A `user_shortlisted_universities` row. -/
structure ShortEntry where
  user_id : String
  university_id : String
  category : UniversityCategory
  notes : Option String
deriving DecidableEq, Repr

/-- The `OnboardingData` payload collected by the onboarding form. -/
structure OnboardingData where
  full_name : String
  current_education_level : String
  field_of_study : String
  gpa : ℚ
  target_degree : String
  preferred_countries : List String
  preferred_fields : List String
  budget_min : Nat
  budget_max : Nat
  exams_taken : List String
  exams_planned : List String
deriving DecidableEq, Repr

/-- The one database error the schema itself produces that the pages
rely on: violation of a `UNIQUE(user_id, university_id)` constraint. -/
inductive DbErr where
  | uniqueViolation
deriving DecidableEq, Repr

/-! ### Application state and the per-operation semantics

`AppState` is the database state the operations read and write:
the `profiles` table keyed by user id, the shared `universities`
table, and the two per-user join tables.  Locked rows are modelled as
their `(user_id, university_id)` key pairs. -/

structure AppState where
  profiles : String → Option Profile
  universities : List University
  shortlist : List ShortEntry
  locked : List (String × String)

/-- `getProfile` against the state: the row with the given id, if any. -/
def getProfileSt (st : AppState) (userId : String) : Option Profile :=
  st.profiles userId

/-- `updateUserStage`: `update profiles set current_stage = s where id = userId`. -/
def setStage (st : AppState) (userId : String) (s : UserStage) : AppState :=
  { st with
    profiles := fun k =>
      if k == userId then (st.profiles k).map (fun p => { p with current_stage := s })
      else st.profiles k }

/-- The key pairs of the shortlist table. -/
def shortPairs (st : AppState) : List (String × String) :=
  st.shortlist.map (fun e => (e.user_id, e.university_id))

/-- `completeOnboarding`: one `update` of the user's profile row that
writes every onboarding field and sets `onboarding_completed = true`
and `current_stage = 'exploring'` — unconditionally. -/
def completeOnboardingOp (st : AppState) (userId : String) (d : OnboardingData) : AppState :=
  { st with
    profiles := fun k =>
      if k == userId then
        (st.profiles k).map (fun p =>
          { p with
            full_name := some d.full_name
            current_education_level := some d.current_education_level
            field_of_study := some d.field_of_study
            gpa := some d.gpa
            target_degree := some d.target_degree
            preferred_countries := d.preferred_countries
            preferred_fields := d.preferred_fields
            budget_min := some d.budget_min
            budget_max := some d.budget_max
            exams_taken := d.exams_taken
            exams_planned := d.exams_planned
            onboarding_completed := true
            current_stage := .exploring })
      else st.profiles k }

/-- `addToShortlist`: an `insert` into `user_shortlisted_universities`;
the schema's `UNIQUE(user_id, university_id)` makes it error on a
duplicate pair, and the function re-throws that error. -/
def addToShortlistOp (st : AppState) (userId universityId : String)
    (category : UniversityCategory) (notes : Option String) : Except DbErr AppState :=
  if (userId, universityId) ∈ shortPairs st then
    .error .uniqueViolation
  else
    .ok { st with shortlist := ⟨userId, universityId, category, notes⟩ :: st.shortlist }

/-- `removeFromShortlist`: `delete where user_id = … and university_id = …`. -/
def removeFromShortlistOp (st : AppState) (userId universityId : String) : AppState :=
  { st with
    shortlist := st.shortlist.filter
      (fun e => !(e.user_id == userId && e.university_id == universityId)) }

/-- `lockUniversity` (`db/api.ts`): insert into
`user_locked_universities` (unique on the pair), then fetch the
profile, and if it exists with a stage other than `committed` and
`applying`, update the stage to `committed`. -/
def lockUniversityOp (st : AppState) (userId universityId : String) : Except DbErr AppState :=
  if (userId, universityId) ∈ st.locked then
    .error .uniqueViolation
  else
    let st1 := { st with locked := (userId, universityId) :: st.locked }
    match getProfileSt st1 userId with
    | some profile =>
      if !(profile.current_stage == .committed) && !(profile.current_stage == .applying) then
        .ok (setStage st1 userId .committed)
      else .ok st1
    | none => .ok st1

/-- `unlockUniversity`: `delete where user_id = … and university_id = …`. -/
def unlockUniversityOp (st : AppState) (userId universityId : String) : AppState :=
  { st with
    locked := st.locked.filter
      (fun pr => !(pr.1 == userId && pr.2 == universityId)) }

/-- `handleAddToShortlist` (`UniversitiesPage.tsx`): call
`addToShortlist`; on success, if the user's stage is `exploring`,
update it to `shortlisting`; a thrown error is caught by the handler
and leaves the state as it was. -/
def handleAddToShortlistOp (st : AppState) (userId universityId : String)
    (category : UniversityCategory) : AppState :=
  match addToShortlistOp st userId universityId category none with
  | .error _ => st
  | .ok st1 =>
    match getProfileSt st1 userId with
    | some p => if p.current_stage == .exploring then setStage st1 userId .shortlisting else st1
    | none => st1

/-- `handleLock` (`UniversitiesPage.tsx`): call `lockUniversity`;
a thrown error is caught and leaves the state as it was. -/
def handleLockOp (st : AppState) (userId universityId : String) : AppState :=
  match lockUniversityOp st userId universityId with
  | .error _ => st
  | .ok st1 => st1

/-- The user's locked rows, as `getLockedUniversities` returns them. -/
def lockedOf (st : AppState) (userId : String) : List (String × String) :=
  st.locked.filter (fun pr => pr.1 == userId)

/-- `loadData` of `ApplicationPage.tsx`, restricted to its one write:
after fetching tasks and locked universities, if at least one locked
university exists and the profile's stage is `committed`, update the
stage to `applying`; otherwise write nothing. -/
def applicationLoadOp (st : AppState) (userId : String) : AppState :=
  let locked := lockedOf st userId
  match getProfileSt st userId with
  | some p =>
    if locked.length > 0 && p.current_stage == .committed then
      setStage st userId .applying
    else st
  | none => st

/-- The stage recorded for a user, when their profile row exists. -/
def stageOf (st : AppState) (userId : String) : Option UserStage :=
  (st.profiles userId).map (fun p => p.current_stage)

/-! ### `getUniversities` with filters (from `db/api.ts`)

The query is `select * from universities order by ranking` with three
optional refinements: `in('country', countries)` when a non-empty
country list is given, `overlaps('programs', programs)` when a
non-empty program list is given, and `lte('tuition_fee_min', budgetMax)`
when a truthy budget cap is given (in SQL, a row with a NULL
`tuition_fee_min` fails the `lte` comparison). -/

structure Filters where
  countries : Option (List String)
  programs : Option (List String)
  budgetMax : Option Nat
deriving DecidableEq, Repr

/-- Does a university row pass the query's `WHERE` refinements? -/
def univPassesFilters (f : Filters) (u : University) : Bool :=
  (match f.countries with
   | some cs => if cs.isEmpty then true else cs.contains u.country
   | none => true) &&
  (match f.programs with
   | some ps => if ps.isEmpty then true else u.programs.any (fun pr => ps.contains pr)
   | none => true) &&
  (match f.budgetMax with
   | some b =>
     if b == 0 then true
     else match u.tuition_fee_min with
       | some t => t ≤ b
       | none => false
   | none => true)

/-- `order by ranking`: ascending, NULL rankings last. -/
def rankLE (u v : University) : Bool :=
  match u.ranking, v.ranking with
  | some a, some b => a ≤ b
  | some _, none => true
  | none, some _ => false
  | none, none => true

/-- Insert into a ranking-sorted list. -/
def insertRank (u : University) : List University → List University
  | [] => [u]
  | v :: vs => if rankLE u v then u :: v :: vs else v :: insertRank u vs

/-- Ranking-sorted view of a row list (`order by ranking`). -/
def sortByRank : List University → List University
  | [] => []
  | u :: us => insertRank u (sortByRank us)

/-- `getUniversities(filters)` against the state. -/
def getUniversitiesSt (st : AppState) (f : Filters) : List University :=
  sortByRank (st.universities.filter (univPassesFilters f))

/-! ### The simulated counsellor (`generateAIResponse`, `CounsellorPage.tsx`) -/

/-- JS template interpolation of a nullable numeric value
(`null` prints as the text `null`). -/
def optQStr (o : Option ℚ) : String :=
  match o with
  | some q => toString q
  | none => "null"

/-- JS `profile.gpa || 'N/A'` (both `null` and `0` are falsy). -/
def gpaDisplay (o : Option ℚ) : String :=
  match o with
  | some q => if q == 0 then "N/A" else toString q
  | none => "N/A"

/-- JS `x || 0` for a nullable integer, rendered into a template. -/
def natOrZero (o : Option Nat) : String := toString (o.getD 0)

/-- JS `profile.gpa && profile.gpa >= 3.5` as a boolean. -/
def gpaStrong (o : Option ℚ) : Bool :=
  match o with
  | some q => if q == 0 then false else decide ((3.5 : ℚ) ≤ q)
  | none => false

/-- JS `!profile.gpa || profile.gpa < 3.5` as a boolean. -/
def gpaWeak (o : Option ℚ) : Bool :=
  match o with
  | some q => if q == 0 then true else decide (q < (3.5 : ℚ))
  | none => true

/-- JS `profile.field_of_study || 'background'` (null and `""` are falsy). -/
def fieldDisplay (o : Option String) : String :=
  match o with
  | some f => if f == "" then "background" else f
  | none => "background"

/-- The filters the recommendation branch builds from the profile:
empty preference lists become `undefined`, and a null or zero
`budget_max` becomes `undefined`. -/
def recFilters (p : Profile) : Filters :=
  { countries := if p.preferred_countries.length > 0 then some p.preferred_countries else none
    programs := if p.preferred_fields.length > 0 then some p.preferred_fields else none
    budgetMax :=
      match p.budget_max with
      | some b => if b == 0 then none else some b
      | none => none }

/-- The reply when the recommendation query returns no rows. -/
def broadenReply : String :=
  "I couldn't find universities matching your exact criteria. Let me broaden the search. Could you tell me more about what's most important to you - location, program, or budget?"

/-- `universities.slice(0, 2)` — the two rows labelled Dream. -/
def recDream (us : List University) : List University := jsSlice us 0 2

/-- `universities.slice(2, 5)` — the three rows labelled Target. -/
def recTarget (us : List University) : List University := jsSlice us 2 5

/-- `universities.slice(5, 8)` — the three rows labelled Safe. -/
def recSafe (us : List University) : List University := jsSlice us 5 8

/-- One bullet of the Dream list. -/
def dreamLine (p : Profile) (uni : University) : String :=
  "- **" ++ uni.name ++ "** (" ++ uni.country ++ "): Acceptance rate " ++
    optQStr uni.acceptance_rate ++ "%. This is a reach school but your " ++
    fieldDisplay p.field_of_study ++ " makes you competitive.\n"

/-- One bullet of the Target list. -/
def targetLine (uni : University) : String :=
  "- **" ++ uni.name ++ "** (" ++ uni.country ++ "): Acceptance rate " ++
    optQStr uni.acceptance_rate ++ "%. Your profile aligns well with their requirements.\n"

/-- One bullet of the Safe list. -/
def safeLine (uni : University) : String :=
  "- **" ++ uni.name ++ "** (" ++ uni.country ++ "): Acceptance rate " ++
    optQStr uni.acceptance_rate ++ "%. Strong likelihood of admission.\n"

/-- `list.forEach(uni => response += line(uni))`. -/
def appendLines (init : String) (line : University → String) (us : List University) : String :=
  us.foldl (fun acc u => acc ++ line u) init

/-- The recommendation-request branch of `generateAIResponse`. -/
def recommendationReply (st : AppState) (profile : Profile) : String :=
  let universities := getUniversitiesSt st (recFilters profile)
  if universities.isEmpty then broadenReply
  else
    let dream := recDream universities
    let target := recTarget universities
    let safe := recSafe universities
    let r0 := "Based on your profile (GPA: " ++ gpaDisplay profile.gpa ++ ", Budget: $" ++
      natOrZero profile.budget_min ++ "-" ++ natOrZero profile.budget_max ++
      "), here are my recommendations:\n\n"
    let r1 := appendLines (r0 ++ "🌟 **Dream Schools** (Reach):\n") (dreamLine profile) dream
    let r2 := appendLines (r1 ++ "\n🎯 **Target Schools** (Match):\n") targetLine target
    let r3 := appendLines (r2 ++ "\n✅ **Safe Schools** (Likely):\n") safeLine safe
    r3 ++ "\nWould you like me to add any of these to your shortlist?"

/-- The profile-analysis branch of `generateAIResponse`. -/
def profileAnalysisReply (p : Profile) : String :=
  let r0 := "Let me analyze your profile:\n\n" ++ "**Strengths:**\n"
  let r1 :=
    if gpaStrong p.gpa then
      r0 ++ "- Strong GPA of " ++ optQStr p.gpa ++ " - this is competitive for most universities\n"
    else r0
  let r2 :=
    if p.exams_taken.length > 0 then
      r1 ++ "- You've completed " ++ String.intercalate ", " p.exams_taken ++ " - great preparation!\n"
    else r1
  let r3 := r2 ++ "- Clear focus on " ++ String.intercalate ", " p.preferred_fields ++ "\n"
  let r4 := r3 ++ "\n**Areas to Strengthen:**\n"
  let r5 :=
    if p.exams_planned.length > 0 then
      r4 ++ "- Complete your planned exams: " ++ String.intercalate ", " p.exams_planned ++ "\n"
    else r4
  let r6 :=
    if gpaWeak p.gpa then r5 ++ "- Consider ways to improve your academic standing\n" else r5
  r6 ++ "\nYour profile is " ++ (if gpaStrong p.gpa then "strong" else "developing") ++
    ". Would you like specific advice on improving your application?"

/-- The budget branch of `generateAIResponse`. -/
def budgetReply (p : Profile) : String :=
  "Based on your budget of $" ++ natOrZero p.budget_min ++ "-" ++ natOrZero p.budget_max ++
    " per year, I can help you find affordable options. Countries like Germany and some European nations offer low or no tuition fees. Would you like me to show you universities within your budget range?"

/-- The timeline branch of `generateAIResponse`. -/
def timelineReply : String :=
  "Here's a typical application timeline:\n\n- **Now**: Research universities and prepare documents\n- **3-6 months before**: Complete standardized tests\n- **2-4 months before**: Write essays and get recommendations\n- **1-2 months before**: Submit applications\n\nMost universities have deadlines between November and February. Would you like me to create a personalized task list?"

/-- The next-steps reply for a user whose stage is `exploring`. -/
def nextExploringReply : String :=
  "Your next step is to explore universities! I recommend:\n1. Review my university recommendations\n2. Add 6-10 universities to your shortlist (mix of Dream, Target, and Safe)\n3. Research each university's specific requirements\n\nWould you like me to recommend some universities now?"

/-- The next-steps reply for a user whose stage is `shortlisting`. -/
def nextShortlistingReply : String :=
  "You're building your shortlist! Make sure to:\n1. Include a balanced mix of Dream, Target, and Safe schools\n2. Consider location, program quality, and budget\n3. Lock at least one university when you're ready to commit\n\nNeed help deciding which universities to add?"

/-- The next-steps reply for a user whose stage is `committed`. -/
def nextCommittedReply : String :=
  "Great! You've locked your choices. Now:\n1. Review application requirements for each university\n2. Start working on your tasks\n3. Prepare documents like transcripts and recommendations\n\nShall I create some tasks to get you started?"

/-- The default reply to an input that reaches the end of the cascade. -/
def defaultReply : String :=
  "I'm here to help you with your university applications! I can:\n\n- Recommend universities based on your profile\n- Analyze your strengths and weaknesses\n- Explain admission requirements\n- Help you build a balanced shortlist\n- Create application tasks and timelines\n\nWhat would you like to know?"

/-- The reply when the user's profile row cannot be fetched. -/
def profileErrorReply : String :=
  "I'm having trouble accessing your profile. Please try again."

/-- The next-steps branch returns a reply only for three stages;
for every other stage control falls through to the default reply. -/
def nextStepsReply : UserStage → Option String
  | .exploring => some nextExploringReply
  | .shortlisting => some nextShortlistingReply
  | .committed => some nextCommittedReply
  | _ => none

/-- `generateAIResponse(userMessage, userId)`: lowercase the message,
fetch the profile, then walk the keyword cascade in source order. -/
def generateAIResponse (st : AppState) (userId userMessage : String) : String :=
  let lowerMessage := lowerStr userMessage
  match getProfileSt st userId with
  | none => profileErrorReply
  | some profile =>
    if jsIncludes lowerMessage "recommend" || jsIncludes lowerMessage "suggest" ||
        jsIncludes lowerMessage "university" || jsIncludes lowerMessage "universities" then
      recommendationReply st profile
    else if jsIncludes lowerMessage "profile" || jsIncludes lowerMessage "chances" ||
        jsIncludes lowerMessage "strength" then
      profileAnalysisReply profile
    else if jsIncludes lowerMessage "budget" || jsIncludes lowerMessage "cost" ||
        jsIncludes lowerMessage "afford" || jsIncludes lowerMessage "expensive" then
      budgetReply profile
    else if jsIncludes lowerMessage "timeline" || jsIncludes lowerMessage "when" ||
        jsIncludes lowerMessage "deadline" then
      timelineReply
    else if jsIncludes lowerMessage "next" || jsIncludes lowerMessage "what should" ||
        jsIncludes lowerMessage "help" then
      match profile.current_stage with
      | .exploring => nextExploringReply
      | .shortlisting => nextShortlistingReply
      | .committed => nextCommittedReply
      | _ => defaultReply
    else defaultReply

/-! ### The keyword groups as the specification describes them

These definitions follow the spec's words (keyword groups tried in a
fixed order, first match wins) and are compared against
`generateAIResponse` in the claims. -/

inductive KeywordGroup where
  | recommendation
  | profileGroup
  | budgetGroup
  | timelineGroup
  | nextSteps
deriving DecidableEq, Repr

/-- The keywords of each group, in the spec's order. -/
def groupKeywords : KeywordGroup → List String
  | .recommendation => ["recommend", "suggest", "university", "universities"]
  | .profileGroup => ["profile", "chances", "strength"]
  | .budgetGroup => ["budget", "cost", "afford", "expensive"]
  | .timelineGroup => ["timeline", "when", "deadline"]
  | .nextSteps => ["next", "what should", "help"]

/-- A group matches when the lowercased message contains one of its keywords. -/
def groupMatches (msg : String) (g : KeywordGroup) : Bool :=
  (groupKeywords g).any (fun k => jsIncludes (lowerStr msg) k)

/-- The groups in the order the spec lists them. -/
def groupOrder : List KeywordGroup :=
  [.recommendation, .profileGroup, .budgetGroup, .timelineGroup, .nextSteps]

/-- The first group the message matches, if any. -/
def firstMatchingGroup (msg : String) : Option KeywordGroup :=
  groupOrder.find? (groupMatches msg)

/-! ### The universities page's in-memory filter (`UniversitiesPage.tsx`) -/

/-- `matchesSearch`: name, country, or (when non-null) city contains
the search term, all lowercased; a null city contributes `false`. -/
def matchesSearch (searchTerm : String) (uni : University) : Bool :=
  jsIncludes (lowerStr uni.name) (lowerStr searchTerm) ||
  jsIncludes (lowerStr uni.country) (lowerStr searchTerm) ||
  (match uni.city with
   | some c => jsIncludes (lowerStr c) (lowerStr searchTerm)
   | none => false)

/-- `matchesCountry`: the filter is `'all'` or equals the row's country. -/
def matchesCountry (countryFilter : String) (uni : University) : Bool :=
  countryFilter == "all" || uni.country == countryFilter

/-- `filteredUniversities = universities.filter(...)`. -/
def filteredUniversities (us : List University) (searchTerm countryFilter : String) :
    List University :=
  us.filter (fun uni => matchesSearch searchTerm uni && matchesCountry countryFilter uni)

/-! ### The data-access layer as remote round trips (`db/api.ts`)

Each exported function of `db/api.ts` is re-expressed over an oracle
that answers the n-th remote table operation of a run.  A call
consumes one oracle answer per round trip; `if (error) throw error`
is the `Except` propagation.  Row payloads are the typed results the
remote returns (`maybeSingle` yields a row or null; a row-list query
yields rows, or a non-array value that the code replaces by `[]`).
What a query or mutation writes remotely is carried by its arguments
and is not re-interpreted here: these definitions capture exactly the
round-trip and error structure of the layer. -/

/-- A `tasks` row (the fields the layer passes through). -/
structure TaskRow where
  id : String
  user_id : String
  university_id : Option String
  title : String
  description : Option String
  completed : Bool
  due_date : Option String
  priority : String
deriving DecidableEq, Repr

/-- A `chat_messages` row. -/
structure ChatRow where
  id : String
  user_id : String
  role : String
  content : String
deriving DecidableEq, Repr

/-- The payload the caller supplies to `createTask`. -/
structure TaskInput where
  title : String
  description : Option String
  university_id : Option String
  due_date : Option String
  priority : Option String
deriving DecidableEq, Repr

/-- What one remote table operation can report back (absent an error). -/
inductive Raw where
  | profileMaybe (p : Option Profile)
  | univRows (us : List University)
  | univMaybe (u : Option University)
  | shortRows (ss : List ShortEntry)
  | lockRows (ls : List (String × String))
  | taskRows (ts : List TaskRow)
  | taskMaybe (t : Option TaskRow)
  | chatRows (cs : List ChatRow)
  | chatMaybe (c : Option ChatRow)
  | nullRaw

/-- An oracle answering the n-th remote operation of a run. -/
def Oracle : Type := Nat → Except DbErr Raw

/-- A data-access computation: given the index of the next remote
operation and the oracle, it either throws or returns a value
together with the index after its last operation. -/
def DbM (α : Type) : Type := Nat → Oracle → Except DbErr (α × Nat)

instance : Monad DbM where
  pure a := fun n _ => .ok (a, n)
  bind m f := fun n o =>
    match m n o with
    | .ok (a, n1) => f a n1 o
    | .error e => .error e

/-- Perform one remote table operation: `if (error) throw error`. -/
def callRemote : DbM Raw := fun n o =>
  match o n with
  | .ok r => .ok (r, n + 1)
  | .error e => .error e

/-- `maybeSingle()` result on `profiles`. -/
def asProfileMaybe : Raw → Option Profile
  | .profileMaybe p => p
  | _ => none

/-- `Array.isArray(data) ? data : []` for a universities query. -/
def asUnivRows : Raw → List University
  | .univRows us => us
  | _ => []

/-- `maybeSingle()` result on `universities`. -/
def asUnivMaybe : Raw → Option University
  | .univMaybe u => u
  | _ => none

/-- `Array.isArray(data) ? data : []` for a shortlist query. -/
def asShortRows : Raw → List ShortEntry
  | .shortRows ss => ss
  | _ => []

/-- `Array.isArray(data) ? data : []` for a locked-universities query. -/
def asLockRows : Raw → List (String × String)
  | .lockRows ls => ls
  | _ => []

/-- `Array.isArray(data) ? data : []` for a tasks query. -/
def asTaskRows : Raw → List TaskRow
  | .taskRows ts => ts
  | _ => []

/-- `maybeSingle()` result on `tasks`. -/
def asTaskMaybe : Raw → Option TaskRow
  | .taskMaybe t => t
  | _ => none

/-- `Array.isArray(data) ? data : []` for a chat-messages query. -/
def asChatRows : Raw → List ChatRow
  | .chatRows cs => cs
  | _ => []

/-- `maybeSingle()` result on `chat_messages`. -/
def asChatMaybe : Raw → Option ChatRow
  | .chatMaybe c => c
  | _ => none

namespace DbApi

def getProfile (userId : String) : DbM (Option Profile) := do
  let data ← callRemote
  pure (asProfileMaybe data)

def updateProfile (userId : String) (updates : Profile → Profile) : DbM (Option Profile) := do
  let data ← callRemote
  pure (asProfileMaybe data)

def completeOnboarding (userId : String) (onboardingData : OnboardingData) :
    DbM (Option Profile) := do
  let data ← callRemote
  pure (asProfileMaybe data)

def updateUserStage (userId : String) (stage : UserStage) : DbM Unit := do
  let _ ← callRemote
  pure ()

def getUniversities (filters : Option Filters) : DbM (List University) := do
  let data ← callRemote
  pure (asUnivRows data)

def getUniversity (id : String) : DbM (Option University) := do
  let data ← callRemote
  pure (asUnivMaybe data)

def searchUniversities (searchTerm : String) : DbM (List University) := do
  let data ← callRemote
  pure (asUnivRows data)

def getShortlistedUniversities (userId : String) : DbM (List ShortEntry) := do
  let data ← callRemote
  pure (asShortRows data)

def addToShortlist (userId universityId : String) (category : UniversityCategory)
    (notes : Option String) : DbM Unit := do
  let _ ← callRemote
  pure ()

def removeFromShortlist (userId universityId : String) : DbM Unit := do
  let _ ← callRemote
  pure ()

def updateShortlistCategory (userId universityId : String)
    (category : UniversityCategory) : DbM Unit := do
  let _ ← callRemote
  pure ()

def getLockedUniversities (userId : String) : DbM (List (String × String)) := do
  let data ← callRemote
  pure (asLockRows data)

/-- `lockUniversity`: the insert, then a profile fetch, then — when the
profile exists with a stage other than `committed` and `applying` — a
stage update.  Up to three round trips, any of which may throw. -/
def lockUniversity (userId universityId : String) : DbM Unit := do
  let _ ← callRemote
  let profile ← getProfile userId
  match profile with
  | some p =>
    if !(p.current_stage == .committed) && !(p.current_stage == .applying) then
      updateUserStage userId .committed
    else pure ()
  | none => pure ()

def unlockUniversity (userId universityId : String) : DbM Unit := do
  let _ ← callRemote
  pure ()

def getTasks (userId : String) : DbM (List TaskRow) := do
  let data ← callRemote
  pure (asTaskRows data)

def createTask (userId : String) (task : TaskInput) : DbM (Option TaskRow) := do
  let data ← callRemote
  pure (asTaskMaybe data)

def updateTask (taskId : String) (updates : TaskRow → TaskRow) : DbM Unit := do
  let _ ← callRemote
  pure ()

def toggleTaskCompletion (taskId : String) (completed : Bool) : DbM Unit := do
  let _ ← callRemote
  pure ()

def deleteTask (taskId : String) : DbM Unit := do
  let _ ← callRemote
  pure ()

def getChatMessages (userId : String) (limit : Nat) : DbM (List ChatRow) := do
  let data ← callRemote
  pure (asChatRows data)

def createChatMessage (userId role content : String) : DbM (Option ChatRow) := do
  let data ← callRemote
  pure (asChatMaybe data)

end DbApi

/-- The single-round-trip contract: the call consumes exactly one
oracle answer, throws exactly the error that answer reports, and
otherwise returns the interpreted payload. -/
def SingleOp {α : Type} (m : DbM α) (interp : Raw → α) : Prop :=
  ∀ (n : Nat) (o : Oracle),
    m n o =
      match o n with
      | .ok r => .ok (interp r, n + 1)
      | .error e => .error e

/-! ### The user-driven transition system

The operations a user can trigger from the pages, with the guards the
pages put on them: the shortlist/lock/unlock buttons of
`UniversityCard` render only in the states noted, the onboarding form
and the applications page are always reachable.  `Reachable` starts
from any state whose join tables are empty (the state of a fresh
deployment's per-user tables). -/

inductive Step : AppState → AppState → Prop where
  | onboard (st : AppState) (uid : String) (d : OnboardingData) :
      Step st (completeOnboardingOp st uid d)
  | addShort (st : AppState) (uid univ : String) (cat : UniversityCategory)
      (hs : (uid, univ) ∉ shortPairs st) (hl : (uid, univ) ∉ st.locked) :
      Step st (handleAddToShortlistOp st uid univ cat)
  | removeShort (st : AppState) (uid univ : String)
      (hs : (uid, univ) ∈ shortPairs st) (hl : (uid, univ) ∉ st.locked) :
      Step st (removeFromShortlistOp st uid univ)
  | lock (st : AppState) (uid univ : String)
      (hs : (uid, univ) ∈ shortPairs st) (hl : (uid, univ) ∉ st.locked) :
      Step st (handleLockOp st uid univ)
  | unlock (st : AppState) (uid univ : String) (h : (uid, univ) ∈ st.locked) :
      Step st (unlockUniversityOp st uid univ)
  | appLoad (st : AppState) (uid : String) :
      Step st (applicationLoadOp st uid)

/-- A state whose per-user join tables are empty. -/
def InitState (st : AppState) : Prop := st.shortlist = [] ∧ st.locked = []

/-- States the application's operations can reach. -/
inductive Reachable : AppState → Prop where
  | init (st : AppState) (h : InitState st) : Reachable st
  | step (st st' : AppState) (h : Reachable st) (hs : Step st st') : Reachable st'

/-! ### The displayed-list predicate in the specification's words -/

/-- "contains the search term case-insensitively". -/
def specContainsCI (field term : String) : Prop :=
  jsIncludes (lowerStr field) (lowerStr term) = true

/-- The spec's description of when a fetched university appears in the
filtered list: name, country, or (non-null) city contains the term
case-insensitively, and the country filter is `'all'` or equals the
row's country. -/
def specAppears (searchTerm countryFilter : String) (u : University) : Prop :=
  (specContainsCI u.name searchTerm ∨ specContainsCI u.country searchTerm ∨
    ∃ c, u.city = some c ∧ specContainsCI c searchTerm) ∧
  (countryFilter = "all" ∨ u.country = countryFilter)

/-! ### Concrete fixtures used by witnesses and counterexamples -/

/-- A fully populated profile row at a given stage. -/
def wProfile (s : UserStage) : Profile :=
  { full_name := some "Ada"
    current_stage := s
    onboarding_completed := true
    current_education_level := some "Undergraduate"
    field_of_study := some "Computer Science"
    gpa := some 3.6
    target_degree := some "Masters"
    preferred_countries := ["UK"]
    preferred_fields := ["Computer Science"]
    budget_min := some 1000
    budget_max := some 5000
    exams_taken := ["IELTS"]
    exams_planned := [] }

/-- A concrete university row. -/
def wUniv (i : String) (r : Nat) : University :=
  { id := i
    name := "Uni " ++ i
    country := "UK"
    city := some "London"
    ranking := some r
    acceptance_rate := some 10
    tuition_fee_min := some 1000
    tuition_fee_max := some 2000
    currency := "GBP"
    programs := ["Computer Science"]
    website := none }

/-- A one-user state with two universities and empty join tables. -/
def wState (s : UserStage) : AppState :=
  { profiles := fun k => if k == "u1" then some (wProfile s) else none
    universities := [wUniv "v1" 1, wUniv "v2" 2]
    shortlist := []
    locked := [] }

/-- A concrete onboarding payload. -/
def wOnb : OnboardingData :=
  { full_name := "Ada"
    current_education_level := "Undergraduate"
    field_of_study := "Computer Science"
    gpa := 3.6
    target_degree := "Masters"
    preferred_countries := ["UK"]
    preferred_fields := ["Computer Science"]
    budget_min := 1000
    budget_max := 5000
    exams_taken := ["IELTS"]
    exams_planned := [] }

/-- A committed one-user state with one locked university. -/
def wC5St : AppState := { wState .committed with locked := [("u1", "v1")] }

/-- An oracle for a fault-free `lockUniversity` run against a profile
in stage `exploring`. -/
def lockOracle : Oracle := fun n =>
  if n == 1 then .ok (.profileMaybe (some (wProfile .exploring))) else .ok .nullRaw

/-! ## Helper lemmas -/

/-- JS `s.includes("")` is true for every `s`. -/
theorem jsIncludes_empty (s : String) : jsIncludes s "" = true := by
  show hasSubstr [] s.data = true
  cases s.data with
  | nil => rfl
  | cons c cs => rfl

/-- `matchesSearch` as a proposition. -/
theorem matchesSearch_iff (t : String) (u : University) :
    matchesSearch t u = true ↔
      (specContainsCI u.name t ∨ specContainsCI u.country t ∨
        ∃ c, u.city = some c ∧ specContainsCI c t) := by
  unfold matchesSearch specContainsCI
  cases hc : u.city <;> simp [hc, Bool.or_eq_true, or_assoc]

/-- `matchesCountry` as a proposition. -/
theorem matchesCountry_iff (cf : String) (u : University) :
    matchesCountry cf u = true ↔ (cf = "all" ∨ u.country = cf) := by
  unfold matchesCountry
  simp [Bool.or_eq_true]

/-- `setStage` pointwise on the profiles table. -/
theorem profiles_setStage (st : AppState) (uid : String) (s : UserStage) (uid' : String) :
    (setStage st uid s).profiles uid' =
      if uid' == uid then (st.profiles uid').map (fun p => { p with current_stage := s })
      else st.profiles uid' := rfl

/-- After `setStage`, a user's row is either untouched or has exactly
the written stage. -/
theorem setStage_profiles_cases (st : AppState) (uid : String) (s : UserStage)
    (uid' : String) (p q : Profile)
    (hp : st.profiles uid' = some p)
    (hq : (setStage st uid s).profiles uid' = some q) :
    q = p ∨ (uid' = uid ∧ q = { p with current_stage := s }) := by
  rw [profiles_setStage] at hq
  cases hb : (uid' == uid) with
  | false =>
    simp only [hb, Bool.false_eq_true, if_false] at hq
    rw [hp] at hq
    exact Or.inl (Option.some.inj hq).symm
  | true =>
    simp only [hb, if_true] at hq
    rw [hp] at hq
    simp only [Option.map_some'] at hq
    exact Or.inr ⟨by simpa using hb, (Option.some.inj hq).symm⟩

/-- `applicationLoadOp` never touches the shortlist table. -/
theorem appLoad_shortPairs (st : AppState) (uid : String) :
    shortPairs (applicationLoadOp st uid) = shortPairs st := by
  simp only [applicationLoadOp]
  split
  · split <;> rfl
  · rfl

/-- `applicationLoadOp` never touches the locked table. -/
theorem appLoad_locked (st : AppState) (uid : String) :
    (applicationLoadOp st uid).locked = st.locked := by
  simp only [applicationLoadOp]
  split
  · split <;> rfl
  · rfl

/-- `handleAddToShortlist` never touches the locked table. -/
theorem handleAdd_locked (st : AppState) (uid univ : String) (cat : UniversityCategory) :
    (handleAddToShortlistOp st uid univ cat).locked = st.locked := by
  unfold handleAddToShortlistOp addToShortlistOp
  by_cases hmem : (uid, univ) ∈ shortPairs st
  · rw [if_pos hmem]
  · rw [if_neg hmem]
    show (match getProfileSt { st with
        shortlist := ⟨uid, univ, cat, none⟩ :: st.shortlist } uid with
      | some p =>
        if p.current_stage == UserStage.exploring then
          setStage { st with shortlist := ⟨uid, univ, cat, none⟩ :: st.shortlist }
            uid .shortlisting
        else { st with shortlist := ⟨uid, univ, cat, none⟩ :: st.shortlist }
      | none => { st with
          shortlist := ⟨uid, univ, cat, none⟩ :: st.shortlist }).locked = st.locked
    cases hgp : getProfileSt { st with
        shortlist := ⟨uid, univ, cat, none⟩ :: st.shortlist } uid with
    | none => rfl
    | some profile =>
      cases hcs : (profile.current_stage == UserStage.exploring) <;>
        simp [hcs, setStage]

/-- On a fresh pair, `handleAddToShortlist` prepends exactly that pair
to the shortlist keys. -/
theorem handleAdd_shortPairs_of_not_mem (st : AppState) (uid univ : String)
    (cat : UniversityCategory) (hs : (uid, univ) ∉ shortPairs st) :
    shortPairs (handleAddToShortlistOp st uid univ cat) = (uid, univ) :: shortPairs st := by
  unfold handleAddToShortlistOp addToShortlistOp
  rw [if_neg hs]
  show shortPairs (match getProfileSt { st with
      shortlist := ⟨uid, univ, cat, none⟩ :: st.shortlist } uid with
    | some p =>
      if p.current_stage == UserStage.exploring then
        setStage { st with shortlist := ⟨uid, univ, cat, none⟩ :: st.shortlist }
          uid .shortlisting
      else { st with shortlist := ⟨uid, univ, cat, none⟩ :: st.shortlist }
    | none => { st with
        shortlist := ⟨uid, univ, cat, none⟩ :: st.shortlist }) = (uid, univ) :: shortPairs st
  cases hgp : getProfileSt { st with
      shortlist := ⟨uid, univ, cat, none⟩ :: st.shortlist } uid with
  | none => rfl
  | some profile =>
    cases hcs : (profile.current_stage == UserStage.exploring) <;>
      simp [hcs, setStage, shortPairs]

/-- `handleLock` never touches the shortlist table. -/
theorem handleLock_shortPairs (st : AppState) (uid univ : String) :
    shortPairs (handleLockOp st uid univ) = shortPairs st := by
  unfold handleLockOp
  simp only [lockUniversityOp]
  by_cases hmem : (uid, univ) ∈ st.locked
  · rw [if_pos hmem]
  · rw [if_neg hmem]
    cases hgp : getProfileSt { st with locked := (uid, univ) :: st.locked } uid with
    | none => rfl
    | some profile =>
      cases hcs : (!(profile.current_stage == UserStage.committed) &&
          !(profile.current_stage == UserStage.applying)) <;>
        simp [hcs, setStage, shortPairs]

/-- On a pair not yet locked, `handleLock` prepends exactly that pair
to the locked table. -/
theorem handleLock_locked_of_not_mem (st : AppState) (uid univ : String)
    (hl : (uid, univ) ∉ st.locked) :
    (handleLockOp st uid univ).locked = (uid, univ) :: st.locked := by
  unfold handleLockOp
  simp only [lockUniversityOp]
  rw [if_neg hl]
  cases hgp : getProfileSt { st with locked := (uid, univ) :: st.locked } uid with
  | none => rfl
  | some profile =>
    cases hcs : (!(profile.current_stage == UserStage.committed) &&
        !(profile.current_stage == UserStage.applying)) <;>
      simp [hcs, setStage]

/-- A surviving shortlist key survives `removeFromShortlist` of a
different key. -/
theorem mem_shortPairs_remove (st : AppState) (uid univ : String)
    (pr : String × String) (hne : pr ≠ (uid, univ)) (hmem : pr ∈ shortPairs st) :
    pr ∈ shortPairs (removeFromShortlistOp st uid univ) := by
  rcases List.mem_map.mp hmem with ⟨e, he, hkey⟩
  refine List.mem_map.mpr ⟨e, List.mem_filter.mpr ⟨he, ?_⟩, hkey⟩
  have hne2 : ¬(e.user_id = uid ∧ e.university_id = univ) := by
    rintro ⟨h1, h2⟩
    exact hne (by rw [← hkey, h1, h2])
  simp only [Bool.not_eq_true', Bool.and_eq_false_iff, beq_eq_false_iff_ne]
  tauto

/-! ## Claim theorems -/

/-- C10: the universities page derives its displayed list in memory: a
fetched university appears in the filtered list iff its name, country,
or (non-null) city contains the search term case-insensitively and the
country filter is `'all'` or equals its country; with the empty search
term the containment test passes for every university, and a
university whose name and country miss the term and whose city is null
never appears. -/
theorem c10_filtered_iff (us : List University) (searchTerm countryFilter : String)
    (u : University) :
    (u ∈ filteredUniversities us searchTerm countryFilter ↔
       u ∈ us ∧ specAppears searchTerm countryFilter u) ∧
    (searchTerm = "" →
       (u ∈ filteredUniversities us searchTerm countryFilter ↔
          u ∈ us ∧ (countryFilter = "all" ∨ u.country = countryFilter))) ∧
    (¬ specContainsCI u.name searchTerm ∧ ¬ specContainsCI u.country searchTerm ∧
       u.city = none →
       u ∉ filteredUniversities us searchTerm countryFilter) := by
  have hmem : u ∈ filteredUniversities us searchTerm countryFilter ↔
      u ∈ us ∧ specAppears searchTerm countryFilter u := by
    unfold filteredUniversities specAppears
    rw [List.mem_filter, Bool.and_eq_true, matchesSearch_iff, matchesCountry_iff]
  refine ⟨hmem, ?_, ?_⟩
  · intro ht
    rw [hmem]
    subst ht
    unfold specAppears
    have hname : specContainsCI u.name "" := by
      unfold specContainsCI
      show jsIncludes (lowerStr u.name) "" = true
      exact jsIncludes_empty _
    simp [hname]
  · rintro ⟨h1, h2, h3⟩ hin
    rcases (hmem.mp hin).2.1 with h | h | ⟨c, hc, _⟩
    · exact h1 h
    · exact h2 h
    · rw [h3] at hc
      cases hc

/-- C8: the counsellor is deterministic: against one fixed database
state, two evaluations of `generateAIResponse` on the same user id and
message return the same string. -/
theorem c8_deterministic (st1 st2 : AppState) (userId userMessage : String)
    (h : st1 = st2) :
    generateAIResponse st1 userId userMessage =
      generateAIResponse st2 userId userMessage := by
  rw [h]

/-- Witness for C8 at a concrete state and message. -/
theorem c8_deterministic_witness :
    generateAIResponse (wState .exploring) "u1" "what should I do" =
      generateAIResponse (wState .exploring) "u1" "what should I do" :=
  c8_deterministic (wState .exploring) (wState .exploring) "u1" "what should I do" rfl

/-- C5: `ApplicationPage.loadData` updates the stage to `applying`
exactly when at least one locked university was fetched and the
current stage is `committed`; in every other case it performs no
stage update (the state is unchanged). -/
theorem c5_applicationLoad (st : AppState) (uid : String) (p : Profile)
    (hp : getProfileSt st uid = some p) :
    ((lockedOf st uid).length > 0 ∧ p.current_stage = .committed →
       applicationLoadOp st uid = setStage st uid .applying ∧
       stageOf (applicationLoadOp st uid) uid = some .applying) ∧
    (¬((lockedOf st uid).length > 0 ∧ p.current_stage = .committed) →
       applicationLoadOp st uid = st) := by
  constructor
  · rintro ⟨hl, hc⟩
    have heq : applicationLoadOp st uid = setStage st uid .applying := by
      unfold applicationLoadOp
      rw [hp]
      simp [hl, hc]
    refine ⟨heq, ?_⟩
    rw [heq]
    unfold stageOf setStage
    simp [hp]
    exact ⟨p, hp⟩
  · intro hno
    unfold applicationLoadOp
    rw [hp]
    by_cases h1 : (lockedOf st uid).length > 0
    · have h2 : p.current_stage ≠ UserStage.committed := fun hc => hno ⟨h1, hc⟩
      simp [h2]
    · simp [h1]

/-- Witness for C5: a committed user with one locked university is
moved to `applying` by the applications-page load. -/
theorem c5_applicationLoad_witness :
    (lockedOf wC5St "u1").length > 0 ∧ (wProfile .committed).current_stage = .committed ∧
    stageOf (applicationLoadOp wC5St "u1") "u1" = some .applying := by
  have h := c5_applicationLoad wC5St "u1" (wProfile .committed) rfl
  exact ⟨by decide, rfl, (h.1 ⟨by decide, rfl⟩).2⟩

/-- C3: a successful `lockUniversity` prepends the (user, university)
pair to the locked rows and then sets the user's stage to `committed`,
unless the stage already is `committed` or `applying`, in which case
the stage is unchanged. -/
theorem c3_lockUniversity (st : AppState) (uid univ : String) (p : Profile)
    (st' : AppState)
    (hp : getProfileSt st uid = some p)
    (hok : lockUniversityOp st uid univ = Except.ok st') :
    st'.locked = (uid, univ) :: st.locked ∧
    stageOf st' uid =
      some (if p.current_stage = .committed ∨ p.current_stage = .applying
            then p.current_stage else .committed) ∧
    (p.current_stage = .committed ∨ p.current_stage = .applying →
       stageOf st' uid = stageOf st uid) := by
  simp only [lockUniversityOp] at hok
  split at hok
  · cases hok
  · rename_i hmem
    rw [show getProfileSt { st with locked := (uid, univ) :: st.locked } uid
          = getProfileSt st uid from rfl, hp] at hok
    split at hok
    · rename_i profile heq
      obtain rfl : profile = p := by
        injection heq with h
        exact h.symm
      split at hok
      · rename_i hcond
        simp only [Bool.and_eq_true, Bool.not_eq_true', beq_eq_false_iff_ne] at hcond
        obtain ⟨h1, h2⟩ := hcond
        obtain rfl := Except.ok.inj hok
        have hifn : ¬(profile.current_stage = UserStage.committed ∨
            profile.current_stage = UserStage.applying) := by tauto
        refine ⟨rfl, ?_, ?_⟩
        · unfold stageOf setStage
          simp [hp]
          exact ⟨⟨profile, hp⟩, by rw [if_neg hifn]⟩
        · rintro (hc | hc)
          · exact absurd hc h1
          · exact absurd hc h2
      · rename_i hcond
        obtain rfl := Except.ok.inj hok
        have hor : profile.current_stage = UserStage.committed ∨
            profile.current_stage = UserStage.applying := by
          by_contra hno
          push_neg at hno
          exact hcond (by simp [beq_iff_eq, hno.1, hno.2])
        refine ⟨rfl, ?_, fun _ => rfl⟩
        unfold stageOf
        rw [show ({ st with locked := (uid, univ) :: st.locked } : AppState).profiles uid
              = getProfileSt st uid from rfl, hp, if_pos hor]
        rfl
    · rename_i heq
      exact absurd heq (by simp)

/-- Witness for C3: locking from stage `exploring` succeeds, records
the pair, and moves the stage to `committed`. -/
theorem c3_lockUniversity_witness :
    lockUniversityOp (wState .exploring) "u1" "v1" =
      Except.ok (setStage { wState .exploring with locked := [("u1", "v1")] } "u1" .committed) ∧
    (setStage { wState .exploring with locked := [("u1", "v1")] } "u1" .committed).locked
        = [("u1", "v1")] ∧
    stageOf (setStage { wState .exploring with locked := [("u1", "v1")] } "u1" .committed) "u1"
        = some (if (wProfile .exploring).current_stage = .committed ∨
                   (wProfile .exploring).current_stage = .applying
                then (wProfile .exploring).current_stage else .committed) := by
  have h := c3_lockUniversity (wState .exploring) "u1" "v1" (wProfile .exploring)
    (setStage { wState .exploring with locked := [("u1", "v1")] } "u1" .committed) rfl rfl
  exact ⟨rfl, h.1, h.2.1⟩

/-- C1 counterexample: completing onboarding from stage `committed`
moves the stage back to `exploring`, an earlier stage in the declared
order — so the application's stage-updating operations do not all move
the stage forward. -/
theorem c1_counterexample :
    stageOf (wState .committed) "u1" = some .committed ∧
    stageOf (completeOnboardingOp (wState .committed) "u1" wOnb) "u1" = some .exploring ∧
    stageIdx .exploring < stageIdx .committed := by
  refine ⟨rfl, rfl, by decide⟩

/-- C1 (amended): adding to the shortlist, locking a university, and
loading the applications page never move any user's stage to an
earlier stage in the declared order; completing onboarding instead
writes `exploring` unconditionally, whatever the stage before it. -/
theorem c1_stage_progression (st : AppState) (uid univ : String)
    (cat : UniversityCategory) (d : OnboardingData) (uid' : String) (p q : Profile)
    (hp : st.profiles uid' = some p) :
    ((handleAddToShortlistOp st uid univ cat).profiles uid' = some q →
       stageIdx p.current_stage ≤ stageIdx q.current_stage) ∧
    ((handleLockOp st uid univ).profiles uid' = some q →
       stageIdx p.current_stage ≤ stageIdx q.current_stage) ∧
    ((applicationLoadOp st uid).profiles uid' = some q →
       stageIdx p.current_stage ≤ stageIdx q.current_stage) ∧
    ((completeOnboardingOp st uid d).profiles uid = some q →
       q.current_stage = UserStage.exploring) := by
  refine ⟨?_, ?_, ?_, ?_⟩
  · intro hq
    unfold handleAddToShortlistOp at hq
    split at hq
    · rw [hp] at hq
      obtain rfl := Option.some.inj hq
      exact le_refl _
    · rename_i st1 heq
      unfold addToShortlistOp at heq
      split at heq
      · cases heq
      · obtain rfl := Except.ok.inj heq
        split at hq
        · rename_i pp hpp
          split at hq
          · rename_i hexp
            rcases setStage_profiles_cases _ _ _ _ p q hp hq with rfl | ⟨huid, rfl⟩
            · exact le_refl _
            · have hppp : pp = p := by
                have h0 : getProfileSt { st with
                    shortlist := ⟨uid, univ, cat, none⟩ :: st.shortlist } uid
                    = st.profiles uid := rfl
                rw [h0, ← huid, hp] at hpp
                exact (Option.some.inj hpp).symm
              have hst : p.current_stage = UserStage.exploring := by
                rw [← hppp]
                simpa using hexp
              show stageIdx p.current_stage ≤ stageIdx UserStage.shortlisting
              rw [hst]
              decide
          · rw [hp] at hq
            obtain rfl := Option.some.inj hq
            exact le_refl _
        · rw [hp] at hq
          obtain rfl := Option.some.inj hq
          exact le_refl _
  · intro hq
    unfold handleLockOp at hq
    split at hq
    · rw [hp] at hq
      obtain rfl := Option.some.inj hq
      exact le_refl _
    · rename_i st1 heq
      simp only [lockUniversityOp] at heq
      split at heq
      · cases heq
      · split at heq
        · rename_i pp hpp
          split at heq
          · rename_i hcond
            obtain rfl := Except.ok.inj heq
            rcases setStage_profiles_cases _ _ _ _ p q hp hq with rfl | ⟨huid, rfl⟩
            · exact le_refl _
            · have hppp : pp = p := by
                have h0 : getProfileSt { st with locked := (uid, univ) :: st.locked } uid
                    = st.profiles uid := rfl
                rw [h0, ← huid, hp] at hpp
                exact (Option.some.inj hpp).symm
              simp only [Bool.and_eq_true, Bool.not_eq_true', beq_eq_false_iff_ne] at hcond
              obtain ⟨h1, h2⟩ := hcond
              show stageIdx p.current_stage ≤ stageIdx UserStage.committed
              cases hcs : p.current_stage
              case applying => exact absurd (hppp ▸ hcs) h2
              all_goals decide
          · obtain rfl := Except.ok.inj heq
            rw [show ({ st with locked := (uid, univ) :: st.locked } : AppState).profiles uid'
                  = st.profiles uid' from rfl, hp] at hq
            obtain rfl := Option.some.inj hq
            exact le_refl _
        · obtain rfl := Except.ok.inj heq
          rw [show ({ st with locked := (uid, univ) :: st.locked } : AppState).profiles uid'
                = st.profiles uid' from rfl, hp] at hq
          obtain rfl := Option.some.inj hq
          exact le_refl _
  · intro hq
    simp only [applicationLoadOp] at hq
    split at hq
    · rename_i pp hpp
      split at hq
      · rename_i hcond
        rcases setStage_profiles_cases _ _ _ _ p q hp hq with rfl | ⟨huid, rfl⟩
        · exact le_refl _
        · have hppp : pp = p := by
            unfold getProfileSt at hpp
            rw [← huid, hp] at hpp
            exact (Option.some.inj hpp).symm
          simp only [Bool.and_eq_true, decide_eq_true_eq, beq_iff_eq] at hcond
          show stageIdx p.current_stage ≤ stageIdx UserStage.applying
          rw [← hppp, hcond.2]
          decide
      · rw [hp] at hq
        obtain rfl := Option.some.inj hq
        exact le_refl _
    · rw [hp] at hq
      obtain rfl := Option.some.inj hq
      exact le_refl _
  · intro hq
    unfold completeOnboardingOp at hq
    simp only [beq_self_eq_true, if_true] at hq
    cases hpu : st.profiles uid with
    | none => rw [hpu] at hq; cases hq
    | some pu =>
      rw [hpu] at hq
      simp only [Option.map_some'] at hq
      obtain rfl := Option.some.inj hq
      rfl

/-- Witness for C1: in a concrete committed state, the three monotone
operations and the onboarding write behave as the amended claim says. -/
theorem c1_stage_progression_witness :
    (wState .committed).profiles "u1" = some (wProfile .committed) ∧
    (((handleAddToShortlistOp (wState .committed) "u1" "v1" .dream).profiles "u1"
        = some (wProfile .committed) →
       stageIdx (wProfile .committed).current_stage
         ≤ stageIdx (wProfile .committed).current_stage) ∧
     ((handleLockOp (wState .committed) "u1" "v1").profiles "u1"
        = some (wProfile .committed) →
       stageIdx (wProfile .committed).current_stage
         ≤ stageIdx (wProfile .committed).current_stage) ∧
     ((applicationLoadOp (wState .committed) "u1").profiles "u1"
        = some (wProfile .committed) →
       stageIdx (wProfile .committed).current_stage
         ≤ stageIdx (wProfile .committed).current_stage) ∧
     ((completeOnboardingOp (wState .committed) "u1" wOnb).profiles "u1"
        = some (wProfile .committed) →
       (wProfile .committed).current_stage = UserStage.exploring)) :=
  ⟨rfl, c1_stage_progression (wState .committed) "u1" "v1" .dream wOnb "u1"
    (wProfile .committed) (wProfile .committed) rfl⟩

set_option maxRecDepth 10000 in
/-- C2 counterexample: the message `"help"` matches the next-steps
keyword group and no earlier group, yet a user whose stage is
`applying` receives the default template rather than a next-steps
template — so not every input matching a group receives that group's
canned reply, and the default reply is not reserved for inputs
matching no group. -/
theorem c2_counterexample :
    firstMatchingGroup "help" = some KeywordGroup.nextSteps ∧
    generateAIResponse (wState .applying) "u1" "help" = defaultReply ∧
    nextStepsReply (wProfile .applying).current_stage = none := by
  refine ⟨by decide, by decide, rfl⟩

/-- C2 (amended): for a user with a profile row, `generateAIResponse`
lowercases the message and walks the five keyword groups in the fixed
order recommendation, profile, budget, timeline, next-steps,
returning the template family of the first group that matches — except
that the next-steps group produces its reply only when the user's
stage is `exploring`, `shortlisting` or `committed`, and otherwise
falls through to the default template; an input matching no group
always receives the default template. -/
theorem c2_keyword_cascade (st : AppState) (uid msg : String) (p : Profile)
    (hp : getProfileSt st uid = some p) :
    generateAIResponse st uid msg =
      match firstMatchingGroup msg with
      | some .recommendation => recommendationReply st p
      | some .profileGroup => profileAnalysisReply p
      | some .budgetGroup => budgetReply p
      | some .timelineGroup => timelineReply
      | some .nextSteps => (nextStepsReply p.current_stage).getD defaultReply
      | none => defaultReply := by
  have e1 : groupMatches msg .recommendation =
      (jsIncludes (lowerStr msg) "recommend" || jsIncludes (lowerStr msg) "suggest" ||
        jsIncludes (lowerStr msg) "university" || jsIncludes (lowerStr msg) "universities") := by
    simp [groupMatches, groupKeywords, Bool.or_assoc]
  have e2 : groupMatches msg .profileGroup =
      (jsIncludes (lowerStr msg) "profile" || jsIncludes (lowerStr msg) "chances" ||
        jsIncludes (lowerStr msg) "strength") := by
    simp [groupMatches, groupKeywords, Bool.or_assoc]
  have e3 : groupMatches msg .budgetGroup =
      (jsIncludes (lowerStr msg) "budget" || jsIncludes (lowerStr msg) "cost" ||
        jsIncludes (lowerStr msg) "afford" || jsIncludes (lowerStr msg) "expensive") := by
    simp [groupMatches, groupKeywords, Bool.or_assoc]
  have e4 : groupMatches msg .timelineGroup =
      (jsIncludes (lowerStr msg) "timeline" || jsIncludes (lowerStr msg) "when" ||
        jsIncludes (lowerStr msg) "deadline") := by
    simp [groupMatches, groupKeywords, Bool.or_assoc]
  have e5 : groupMatches msg .nextSteps =
      (jsIncludes (lowerStr msg) "next" || jsIncludes (lowerStr msg) "what should" ||
        jsIncludes (lowerStr msg) "help") := by
    simp [groupMatches, groupKeywords, Bool.or_assoc]
  simp only [generateAIResponse, hp]
  rw [← e1, ← e2, ← e3, ← e4, ← e5]
  unfold firstMatchingGroup groupOrder
  cases h1 : groupMatches msg .recommendation <;>
    cases h2 : groupMatches msg .profileGroup <;>
      cases h3 : groupMatches msg .budgetGroup <;>
        cases h4 : groupMatches msg .timelineGroup <;>
          cases h5 : groupMatches msg .nextSteps <;>
            simp only [List.find?, h1, h2, h3, h4, h5, if_true, if_false,
              Bool.false_eq_true] <;>
    first
      | rfl
      | (cases p.current_stage <;> rfl)

/-- Witness for C2 at a concrete state: a budget question from a user
with a profile row gets the budget template. -/
theorem c2_keyword_cascade_witness :
    getProfileSt (wState .exploring) "u1" = some (wProfile .exploring) ∧
    generateAIResponse (wState .exploring) "u1" "What does it cost" =
      budgetReply (wProfile .exploring) := by
  have h := c2_keyword_cascade (wState .exploring) "u1" "What does it cost"
    (wProfile .exploring) rfl
  refine ⟨rfl, ?_⟩
  rw [h]
  have : firstMatchingGroup "What does it cost" = some KeywordGroup.budgetGroup := by decide
  rw [this]

/-- C9: over the ranking-ordered match list, the recommendation branch
labels the first two rows Dream, the next three Target and the next
three Safe: the three slices concatenate to the list's first eight
rows, have sizes at most 2, 3 and 3, and are pairwise disjoint when
the list has no duplicate rows; when the match list is empty the
branch returns the broaden-the-search reply instead. -/
theorem c9_recommendation_slices (st : AppState) (p : Profile) (us : List University)
    (hus : us = getUniversitiesSt st (recFilters p)) (hnd : us.Nodup) :
    recDream us ++ recTarget us ++ recSafe us = us.take 8 ∧
    (recDream us).length ≤ 2 ∧ (recTarget us).length ≤ 3 ∧ (recSafe us).length ≤ 3 ∧
    (recDream us).Disjoint (recTarget us) ∧
    (recDream us).Disjoint (recSafe us) ∧
    (recTarget us).Disjoint (recSafe us) ∧
    (us = [] → recommendationReply st p = broadenReply) := by
  have hcat : recDream us ++ recTarget us ++ recSafe us = us.take 8 := by
    unfold recDream recTarget recSafe jsSlice
    have h8 : us.take 8 = us.take 5 ++ (us.drop 5).take 3 := by
      have h := List.take_add us 5 3
      norm_num at h
      exact h
    have h5 : us.take 5 = us.take 2 ++ (us.drop 2).take 3 := by
      have h := List.take_add us 2 3
      norm_num at h
      exact h
    rw [h8, h5]
    norm_num
  have h8nd : (us.take 8).Nodup := hnd.sublist (List.take_sublist 8 us)
  rw [← hcat] at h8nd
  have hsplit1 := List.nodup_append.mp h8nd
  have hsplit2 := List.nodup_append.mp hsplit1.1
  have hdisj := (List.disjoint_append_left).mp hsplit1.2.2
  refine ⟨hcat, ?_, ?_, ?_, hsplit2.2.2, hdisj.1, hdisj.2, ?_⟩
  · exact (List.length_take_le 2 us).trans_eq rfl
  · exact List.length_take_le 3 _
  · exact List.length_take_le 3 _
  · intro h0
    have hempty : getUniversitiesSt st (recFilters p) = [] := by rw [← hus, h0]
    unfold recommendationReply
    rw [hempty]
    rfl

/-- Witness for C9 at a concrete two-university state. -/
theorem c9_recommendation_slices_witness :
    (getUniversitiesSt (wState .exploring) (recFilters (wProfile .exploring))).Nodup ∧
    (recDream (getUniversitiesSt (wState .exploring) (recFilters (wProfile .exploring))) ++
       recTarget (getUniversitiesSt (wState .exploring) (recFilters (wProfile .exploring))) ++
       recSafe (getUniversitiesSt (wState .exploring) (recFilters (wProfile .exploring))) =
     (getUniversitiesSt (wState .exploring) (recFilters (wProfile .exploring))).take 8) := by
  have h := c9_recommendation_slices (wState .exploring) (wProfile .exploring)
    (getUniversitiesSt (wState .exploring) (recFilters (wProfile .exploring))) rfl (by decide)
  exact ⟨by decide, h.1⟩

/-- C7 counterexample: `lockUniversity` is a data-access function of
`db/api.ts`, yet a fault-free run of it against a profile in stage
`exploring` performs three remote table operations, not one. -/
theorem c7_counterexample :
    DbApi.lockUniversity "u1" "v1" 0 lockOracle = Except.ok ((), 3) ∧ (3 : Nat) ≠ 1 := by
  exact ⟨rfl, by decide⟩

/-- C7 (amended): every data-access function except `lockUniversity`
performs exactly one remote table operation, throws exactly the error
that operation reports, and otherwise returns its interpreted payload
(rows, `[]` for a non-array payload, or the row-or-null of
`maybeSingle`, or void); `lockUniversity` instead chains an insert, a
profile select, and — when the fetched profile exists with a stage
other than `committed` and `applying` — a stage update, throwing as
soon as any of the chained operations reports an error. -/
theorem c7_data_access (uid univ taskId role content id term : String)
    (stage : UserStage) (cat : UniversityCategory) (notes : Option String)
    (filters : Option Filters) (updates : Profile → Profile) (d : OnboardingData)
    (task : TaskInput) (tupd : TaskRow → TaskRow) (completed : Bool) (limit : Nat) :
    SingleOp (DbApi.getProfile uid) asProfileMaybe ∧
    SingleOp (DbApi.updateProfile uid updates) asProfileMaybe ∧
    SingleOp (DbApi.completeOnboarding uid d) asProfileMaybe ∧
    SingleOp (DbApi.updateUserStage uid stage) (fun _ => ()) ∧
    SingleOp (DbApi.getUniversities filters) asUnivRows ∧
    SingleOp (DbApi.getUniversity id) asUnivMaybe ∧
    SingleOp (DbApi.searchUniversities term) asUnivRows ∧
    SingleOp (DbApi.getShortlistedUniversities uid) asShortRows ∧
    SingleOp (DbApi.addToShortlist uid univ cat notes) (fun _ => ()) ∧
    SingleOp (DbApi.removeFromShortlist uid univ) (fun _ => ()) ∧
    SingleOp (DbApi.updateShortlistCategory uid univ cat) (fun _ => ()) ∧
    SingleOp (DbApi.getLockedUniversities uid) asLockRows ∧
    SingleOp (DbApi.unlockUniversity uid univ) (fun _ => ()) ∧
    SingleOp (DbApi.getTasks uid) asTaskRows ∧
    SingleOp (DbApi.createTask uid task) asTaskMaybe ∧
    SingleOp (DbApi.updateTask taskId tupd) (fun _ => ()) ∧
    SingleOp (DbApi.toggleTaskCompletion taskId completed) (fun _ => ()) ∧
    SingleOp (DbApi.deleteTask taskId) (fun _ => ()) ∧
    SingleOp (DbApi.getChatMessages uid limit) asChatRows ∧
    SingleOp (DbApi.createChatMessage uid role content) asChatMaybe ∧
    (∀ (n : Nat) (o : Oracle),
      DbApi.lockUniversity uid univ n o =
        match o n with
        | .error e => .error e
        | .ok _ =>
          match o (n + 1) with
          | .error e => .error e
          | .ok r =>
            match asProfileMaybe r with
            | some p =>
              if !(p.current_stage == .committed) && !(p.current_stage == .applying) then
                match o (n + 2) with
                | .error e => .error e
                | .ok _ => .ok ((), n + 3)
              else .ok ((), n + 2)
            | none => .ok ((), n + 2)) := by
  have hsingle : ∀ {α : Type} (interp : Raw → α),
      SingleOp (do let d ← callRemote; pure (interp d)) interp := by
    intro α interp n o
    show (callRemote >>= fun d => pure (interp d)) n o = _
    cases h : o n <;> simp [Bind.bind, callRemote, Pure.pure, h]
  refine ⟨hsingle _, hsingle _, hsingle _, hsingle _, hsingle _, hsingle _, hsingle _,
    hsingle _, hsingle _, hsingle _, hsingle _, hsingle _, hsingle _, hsingle _,
    hsingle _, hsingle _, hsingle _, hsingle _, hsingle _, hsingle _, ?_⟩
  intro n o
  show (callRemote >>= fun _ =>
      DbApi.getProfile uid >>= fun profile =>
        match profile with
        | some p =>
          if !(p.current_stage == .committed) && !(p.current_stage == .applying) then
            DbApi.updateUserStage uid .committed
          else pure ()
        | none => pure ()) n o = _
  cases h0 : o n with
  | error e => simp [Bind.bind, callRemote, h0]
  | ok r0 =>
    simp only [Bind.bind, callRemote, h0]
    cases h1 : o (n + 1) with
    | error e => simp [DbApi.getProfile, Bind.bind, callRemote, Pure.pure, h1]
    | ok r1 =>
      simp only [DbApi.getProfile, Bind.bind, callRemote, Pure.pure, h1]
      cases hp : asProfileMaybe r1 with
      | none => rfl
      | some p =>
        by_cases hc : (!(p.current_stage == UserStage.committed) &&
            !(p.current_stage == UserStage.applying)) = true
        · simp only [hp, hc, if_true]
          cases h2 : o (n + 2) <;>
            simp [DbApi.updateUserStage, Bind.bind, callRemote, Pure.pure, h2]
        · simp only [hp, Bool.not_eq_true] at hc
          simp only [hp, hc, Bool.false_eq_true, if_false]

/-- C4: in every state the application's operations can reach, every
(user, university) pair in the locked table is also a key of that
user's shortlist — a university is locked only while it is
shortlisted. -/
theorem c4_locked_shortlisted (st : AppState) (h : Reachable st) :
    ∀ pr ∈ st.locked, pr ∈ shortPairs st := by
  induction h with
  | init st h0 =>
    intro pr hpr
    rw [h0.2] at hpr
    cases hpr
  | step st st' hr hs ih =>
    cases hs with
    | onboard uid d =>
      intro pr hpr
      exact ih pr hpr
    | addShort uid univ cat hsg hlg =>
      intro pr hpr
      rw [handleAdd_locked] at hpr
      rw [handleAdd_shortPairs_of_not_mem st uid univ cat hsg]
      exact List.mem_cons_of_mem _ (ih pr hpr)
    | removeShort uid univ hsg hlg =>
      intro pr hpr
      have hne : pr ≠ (uid, univ) := fun h => hlg (h ▸ hpr)
      exact mem_shortPairs_remove st uid univ pr hne (ih pr hpr)
    | lock uid univ hsg hlg =>
      intro pr hpr
      rw [handleLock_locked_of_not_mem st uid univ hlg] at hpr
      rw [handleLock_shortPairs]
      rcases List.mem_cons.mp hpr with rfl | hpr'
      · exact hsg
      · exact ih pr hpr'
    | unlock uid univ hg =>
      intro pr hpr
      exact ih pr (List.mem_of_mem_filter hpr)
    | appLoad uid =>
      intro pr hpr
      rw [appLoad_locked] at hpr
      rw [appLoad_shortPairs]
      exact ih pr hpr

/-- Witness for C4: after shortlisting and then locking `"v1"`, the
locked pair is a shortlist key of the reached state. -/
theorem c4_locked_shortlisted_witness :
    ("u1", "v1") ∈ shortPairs
      (handleLockOp (handleAddToShortlistOp (wState .exploring) "u1" "v1" .dream)
        "u1" "v1") := by
  have hr0 : Reachable (wState .exploring) := Reachable.init _ ⟨rfl, rfl⟩
  have hr1 : Reachable (handleAddToShortlistOp (wState .exploring) "u1" "v1" .dream) :=
    Reachable.step _ _ hr0 (Step.addShort _ _ _ _ (by decide) (by decide))
  have hr2 : Reachable
      (handleLockOp (handleAddToShortlistOp (wState .exploring) "u1" "v1" .dream) "u1" "v1") :=
    Reachable.step _ _ hr1 (Step.lock _ _ _ (by decide) (by decide))
  exact c4_locked_shortlisted _ hr2 ("u1", "v1") (by decide)

/-- C6: the shortlist behaves as a set: in every reachable state its
(user, university) keys are pairwise distinct, and `addToShortlist`
on an already-shortlisted pair fails with the unique-constraint error
while the page handler leaves the state unchanged. -/
theorem c6_shortlist_set (st : AppState) (hr : Reachable st) (uid univ : String)
    (cat : UniversityCategory) (notes : Option String) :
    (shortPairs st).Nodup ∧
    ((uid, univ) ∈ shortPairs st →
       addToShortlistOp st uid univ cat notes = Except.error DbErr.uniqueViolation ∧
       handleAddToShortlistOp st uid univ cat = st) := by
  constructor
  · induction hr with
    | init st h0 =>
      simp [shortPairs, h0.1]
    | step st st' hr hs ih =>
      cases hs with
      | onboard uid2 d => exact ih
      | addShort uid2 univ2 cat2 hsg hlg =>
        rw [handleAdd_shortPairs_of_not_mem st uid2 univ2 cat2 hsg]
        exact List.nodup_cons.mpr ⟨hsg, ih⟩
      | removeShort uid2 univ2 hsg hlg =>
        exact ih.sublist ((List.filter_sublist _).map _)
      | lock uid2 univ2 hsg hlg =>
        rw [handleLock_shortPairs]
        exact ih
      | unlock uid2 univ2 hg => exact ih
      | appLoad uid2 =>
        rw [appLoad_shortPairs]
        exact ih
  · intro hmem
    constructor
    · unfold addToShortlistOp
      rw [if_pos hmem]
    · unfold handleAddToShortlistOp addToShortlistOp
      rw [if_pos hmem]

/-- Witness for C6: a reachable state with `"v1"` shortlisted has
distinct shortlist keys, and re-adding `"v1"` errors. -/
theorem c6_shortlist_set_witness :
    (shortPairs (handleAddToShortlistOp (wState .exploring) "u1" "v1" .dream)).Nodup ∧
    addToShortlistOp (handleAddToShortlistOp (wState .exploring) "u1" "v1" .dream)
        "u1" "v1" .target none = Except.error DbErr.uniqueViolation := by
  have hr0 : Reachable (wState .exploring) := Reachable.init _ ⟨rfl, rfl⟩
  have hr1 : Reachable (handleAddToShortlistOp (wState .exploring) "u1" "v1" .dream) :=
    Reachable.step _ _ hr0 (Step.addShort _ _ _ _ (by decide) (by decide))
  have h := c6_shortlist_set _ hr1 "u1" "v1" .target none
  exact ⟨h.1, (h.2 (by decide)).1⟩

end AiCounsellor
